import Mathlib

/-!
Verification of the `constant-string` library: a constant-value type bound to a
string literal `L`, with a validating serde deserializer (`MustBeStrVisitor`),
a trivial serializer, and a utoipa schema emitter.

The embedding models:
  - structured input values (the self-describing data model a serde
    `deserialize_any` call dispatches on) as the inductive `Value`;
  - serde's `Unexpected` shape report and the `invalid_type` / `invalid_value`
    error constructors as inductives (`Unexpected`, `DeError`); the error
    carries the visitor itself, as in serde where `&self` is passed as the
    `Expected` rendering context;
  - `MustBeStrVisitor` from `src/serde.rs` with its `visit_str` and
    `expecting`; every non-string shape falls through to serde's default
    visitor methods, which report `invalid_type`;
  - the macro-generated type from `src/lib.rs` (`constant_string_base`,
    `constant_string_serde`, `constant_string_utoipa`) as the parameterized
    zero-field structure `ConstantString L` with `default`, `deref`,
    `fmtDebug`, `deserialize`, `serialize` and `schema`.
-/

/-- Structured input value of a self-describing format (string, number,
boolean, null, sequence, mapping), the shapes a `deserialize_any` call can
report to a visitor. -/
inductive Value where
  | str (s : String)
  | num (n : Int)
  | bool (b : Bool)
  | null
  | seq (xs : List Value)
  | map (xs : List (Value × Value))

/-- Shape discriminator: is this value a string? -/
def Value.isStr : Value → Bool
  | .str _ => true
  | _ => false

/-- Model of serde's `Unexpected`: the shape class actually found in the
input, reported inside deserialization errors. Only the variants reachable
from this program's data model are included. -/
inductive Unexpected where
  | boolean (b : Bool)
  | signed (n : Int)
  | str (s : String)
  | unit
  | seq
  | map
deriving DecidableEq

/-- The visitor from `src/serde.rs`: `pub struct MustBeStrVisitor(pub &'static str)`.
Its single field is the bound literal. -/
structure MustBeStrVisitor where
  val : String
deriving DecidableEq

/-- Model of serde's deserialization error at the `Error::invalid_type` /
`Error::invalid_value` construction boundary: the error kind, the `Unexpected`
shape actually found, and the `Expected` context (`&self`, i.e. the visitor,
which holds the bound literal). -/
inductive DeError where
  | invalid_type (unexp : Unexpected) (exp : MustBeStrVisitor)
  | invalid_value (unexp : Unexpected) (exp : MustBeStrVisitor)
deriving DecidableEq

/-- Kind test: is this an `invalid_type` error? -/
def DeError.isInvalidType : DeError → Bool
  | .invalid_type _ _ => true
  | .invalid_value _ _ => false

/-- Kind test: is this an `invalid_value` error? -/
def DeError.isInvalidValue : DeError → Bool
  | .invalid_type _ _ => false
  | .invalid_value _ _ => true

/-- Model of Rust's `char`-level debug escaping as used by `{:?}` on `str`
(`"` and `\` are escaped, common control characters get named escapes, other
ASCII control characters get a `\u` escape; printable characters pass
through; the Unicode printability tables of the standard library are
abstracted as pass-through, which is exact on ASCII input). -/
def rustDebugChar (c : Char) : String :=
  if c = '"' then "\\\""
  else if c = '\\' then "\\\\"
  else if c = '\n' then "\\n"
  else if c = '\r' then "\\r"
  else if c = '\t' then "\\t"
  else if c = '\x00' then "\\0"
  else if c.toNat < 0x20 ∨ c.toNat = 0x7f then
    "\\u\x7b" ++ String.mk (Nat.toDigits 16 c.toNat) ++ "\x7d"
  else String.mk [c]

/-- Model of Rust's `{:?}` (Debug) rendering of a `str`: the contents,
character-escaped, wrapped in double quotes. -/
def rustDebugStr (s : String) : String :=
  "\"" ++ String.join (s.toList.map rustDebugChar) ++ "\""

/-- `MustBeStrVisitor::expecting`: `write!(formatter, "{:?}", self.0)`, i.e.
the debug rendering of the bound literal. -/
def MustBeStrVisitor.expecting (self : MustBeStrVisitor) : String :=
  rustDebugStr self.val

/-- `MustBeStrVisitor::visit_str` from `src/serde.rs`: succeed with `()` when
the visited string equals the bound literal, otherwise
`Err(E::invalid_value(Unexpected::Str(v), &self))`. -/
def MustBeStrVisitor.visit_str (self : MustBeStrVisitor) (v : String) :
    Except DeError Unit :=
  if v = self.val then Except.ok ()
  else Except.error (DeError.invalid_value (Unexpected.str v) self)

/-- Dispatch of a self-describing deserializer's `deserialize_any` on
`MustBeStrVisitor`: a string shape reaches the overridden `visit_str`; every
other shape reaches serde's default visitor method, which is
`Err(Error::invalid_type(Unexpected::<shape>, &self))`. -/
def Value.deserialize_any (v : Value) (vis : MustBeStrVisitor) :
    Except DeError Unit :=
  match v with
  | .str s => vis.visit_str s
  | .num n => Except.error (DeError.invalid_type (Unexpected.signed n) vis)
  | .bool b => Except.error (DeError.invalid_type (Unexpected.boolean b) vis)
  | .null => Except.error (DeError.invalid_type Unexpected.unit vis)
  | .seq _ => Except.error (DeError.invalid_type Unexpected.seq vis)
  | .map _ => Except.error (DeError.invalid_type Unexpected.map vis)

/-- The macro-generated constant-value type: `pub struct $name;`, a zero-field
unit struct statically bound to the literal `L` (here carried as a type-level
parameter, mirroring the per-literal macro expansion). -/
structure ConstantString (L : String) where
deriving DecidableEq

/-- The generated `Default` impl: `fn default() -> Self { Self }`. -/
def ConstantString.default (L : String) : ConstantString L :=
  ConstantString.mk

/-- The generated `Deref` impl: `fn deref(&self) -> &str { $code_name }`,
returning the bound literal. -/
def ConstantString.deref {L : String} (_ : ConstantString L) : String :=
  L

/-- The generated `Debug` impl: `Debug::fmt(&**self, f)`, i.e. the debug
rendering of the dereferenced string. -/
def ConstantString.fmtDebug {L : String} (self : ConstantString L) : String :=
  rustDebugStr self.deref

/-- The generated `Deserialize` impl:
`deserializer.deserialize_any(MustBeStrVisitor($code_name)).map(|()| Self)`. -/
def ConstantString.deserialize (L : String) (input : Value) :
    Except DeError (ConstantString L) :=
  (input.deserialize_any (MustBeStrVisitor.mk L)).map (fun _ => ConstantString.mk)

/-- Serialization error type of the value-building encoding surface; emitting
a string into the structured data model cannot fail, so the type is empty. -/
inductive SerError where
deriving DecidableEq

/-- The encoding surface's `serialize_str`: emit a string value. Total. -/
def Serializer.serialize_str (s : String) : Except SerError Value :=
  Except.ok (Value.str s)

/-- The generated `Serialize` impl: `serializer.serialize_str($code_name)`. -/
def ConstantString.serialize {L : String} (_ : ConstantString L) :
    Except SerError Value :=
  Serializer.serialize_str L

/-- Model of utoipa's `schema::Type` primitive kind tag. -/
inductive SchemaType where
  | object
  | string
  | integer
  | number
  | boolean
  | array
  | null
deriving DecidableEq

/-- Model of a utoipa `Object` schema node, projected to the fields this
program sets: the primitive kind and the enumerated allowed values. -/
structure SchemaObject where
  schema_type : SchemaType
  enum_values : Option (List String)
deriving DecidableEq

/-- Model of utoipa's `ObjectBuilder` (same projected fields). -/
structure ObjectBuilder where
  schema_type : SchemaType
  enum_values : Option (List String)
deriving DecidableEq

/-- `ObjectBuilder::new()`: default object schema (kind `object`, no
enumerated values). -/
def ObjectBuilder.new : ObjectBuilder :=
  ObjectBuilder.mk SchemaType.object none

/-- Builder step `.schema_type(t)`. -/
def ObjectBuilder.with_schema_type (b : ObjectBuilder) (t : SchemaType) :
    ObjectBuilder :=
  ObjectBuilder.mk t b.enum_values

/-- Builder step `.enum_values(v)`. -/
def ObjectBuilder.with_enum_values (b : ObjectBuilder)
    (v : Option (List String)) : ObjectBuilder :=
  ObjectBuilder.mk b.schema_type v

/-- Builder step `.build()`. -/
def ObjectBuilder.build (b : ObjectBuilder) : SchemaObject :=
  SchemaObject.mk b.schema_type b.enum_values

/-- Model of utoipa's `Schema`, restricted to the variant this program
produces. -/
inductive Schema where
  | object (o : SchemaObject)
deriving DecidableEq

/-- Model of utoipa's `RefOr`: either a reference or an inline value. -/
inductive RefOr (T : Type) where
  | ref (location : String)
  | t (v : T)

/-- The generated `PartialSchema::schema` impl:
`ObjectBuilder::new().schema_type(Type::String).enum_values(Some([L])).build().into()`. -/
def ConstantString.schema (L : String) : RefOr Schema :=
  RefOr.t (Schema.object
    (((ObjectBuilder.new.with_schema_type SchemaType.string).with_enum_values
      (some [L])).build))

/-- C1: for every bound literal `L` and every structured input value `x`,
deserialization succeeds (yielding the unit instance) if and only if `x` is a
string whose contents equal `L` exactly (string equality on the full
character sequence; no trimming or normalization). -/
theorem constant_string_deserialize_ok_iff (L : String) (x : Value) :
    (∃ c, ConstantString.deserialize L x = Except.ok c) ↔ x = Value.str L := by
  cases x with
  | str s =>
    by_cases h : s = L
    · subst h
      simp [ConstantString.deserialize, Value.deserialize_any,
        MustBeStrVisitor.visit_str, Except.map]
      exact ⟨ConstantString.mk, trivial⟩
    · simp [ConstantString.deserialize, Value.deserialize_any,
        MustBeStrVisitor.visit_str, h, Except.map]
  | num n =>
    simp [ConstantString.deserialize, Value.deserialize_any, Except.map]
  | bool b =>
    simp [ConstantString.deserialize, Value.deserialize_any, Except.map]
  | null =>
    simp [ConstantString.deserialize, Value.deserialize_any, Except.map]
  | seq xs =>
    simp [ConstantString.deserialize, Value.deserialize_any, Except.map]
  | map xs =>
    simp [ConstantString.deserialize, Value.deserialize_any, Except.map]

/-- C2: for every bound literal `L` and every input whose shape is not a
string, deserialization fails with an `invalid_type` error (carrying the
visitor bound to `L`), never with an `invalid_value` error. -/
theorem constant_string_nonstring_invalid_type (L : String) (x : Value)
    (h : x.isStr = false) :
    ∃ u, ConstantString.deserialize L x
      = Except.error (DeError.invalid_type u (MustBeStrVisitor.mk L)) := by
  cases x with
  | str s => simp [Value.isStr] at h
  | num n => exact ⟨Unexpected.signed n, rfl⟩
  | bool b => exact ⟨Unexpected.boolean b, rfl⟩
  | null => exact ⟨Unexpected.unit, rfl⟩
  | seq xs => exact ⟨Unexpected.seq, rfl⟩
  | map xs => exact ⟨Unexpected.map, rfl⟩

/-- C2 witness: the number 42 is not a string, and deserializing it for the
literal "constant" fails with an `invalid_type` error. -/
theorem constant_string_nonstring_invalid_type_witness :
    (Value.num 42).isStr = false
    ∧ ∃ u, ConstantString.deserialize "constant" (Value.num 42)
      = Except.error (DeError.invalid_type u (MustBeStrVisitor.mk "constant")) :=
  ⟨rfl, constant_string_nonstring_invalid_type "constant" (Value.num 42) rfl⟩

/-- C3: for every bound literal `L` and every string input `s ≠ L`,
deserialization fails with an `invalid_value` error carrying both the
observed string `s` (as the `Unexpected` shape) and the visitor holding the
expected literal `L`. -/
theorem constant_string_mismatch_invalid_value (L s : String) (h : s ≠ L) :
    ConstantString.deserialize L (Value.str s)
      = Except.error
        (DeError.invalid_value (Unexpected.str s) (MustBeStrVisitor.mk L)) := by
  simp [ConstantString.deserialize, Value.deserialize_any,
    MustBeStrVisitor.visit_str, h, Except.map]

/-- C3 witness: for literal "constant" and input string "other", the failure
is `invalid_value` carrying "other" and the visitor holding "constant". -/
theorem constant_string_mismatch_invalid_value_witness :
    "other" ≠ "constant"
    ∧ ConstantString.deserialize "constant" (Value.str "other")
      = Except.error (DeError.invalid_value (Unexpected.str "other")
          (MustBeStrVisitor.mk "constant")) :=
  ⟨by decide, constant_string_mismatch_invalid_value "constant" "other" (by decide)⟩

/-- C4: for every bound literal `L`, the emitted schema descriptor is an
inline string-typed schema node whose enumerated allowed-value list is
exactly `[L]`, of length exactly one. -/
theorem constant_string_schema_singleton (L : String) :
    ConstantString.schema L
      = RefOr.t (Schema.object (SchemaObject.mk SchemaType.string (some [L])))
    ∧ List.length [L] = 1 :=
  ⟨rfl, rfl⟩

/-- C5: round-trip — serializing an instance of the constant-value type bound
to `L` emits the string `L`, and deserializing that output succeeds with the
unit instance. -/
theorem constant_string_round_trip (L : String) (c : ConstantString L) :
    c.serialize = Except.ok (Value.str L)
    ∧ ConstantString.deserialize L (Value.str L)
      = Except.ok ConstantString.mk := by
  refine ⟨rfl, ?_⟩
  simp [ConstantString.deserialize, Value.deserialize_any,
    MustBeStrVisitor.visit_str, Except.map]

/-- C6: serialization and schema emission are total in `L` — serialization
always succeeds with the string `L` (the serialization error type is empty,
so no error value even exists), and schema emission always yields an inline
schema node. -/
theorem constant_string_serialize_schema_total (L : String)
    (c : ConstantString L) :
    c.serialize = Except.ok (Value.str L)
    ∧ (∃ node, ConstantString.schema L = RefOr.t node)
    ∧ ∀ e : SerError, False :=
  ⟨rfl, ⟨_, rfl⟩, fun e => nomatch e⟩

/-- C7: for the empty-string literal, deserialization succeeds exactly on the
empty-string input — input "" succeeds, input "x" fails with `invalid_value`
— with no special-casing of the empty literal. -/
theorem constant_string_empty_literal :
    ConstantString.deserialize "" (Value.str "") = Except.ok ConstantString.mk
    ∧ ConstantString.deserialize "" (Value.str "x")
      = Except.error (DeError.invalid_value (Unexpected.str "x")
          (MustBeStrVisitor.mk "")) := by
  constructor
  · simp [ConstantString.deserialize, Value.deserialize_any,
      MustBeStrVisitor.visit_str, Except.map]
  · simp [ConstantString.deserialize, Value.deserialize_any,
      MustBeStrVisitor.visit_str, Except.map]

/-- C8: concrete scenario with literal "constant" — deserializing the string
"constant" succeeds, the resulting instance's debug rendering is the Rust
str-debug form of the literal (the literal in quotes), and the instance
serializes back to the string "constant". -/
theorem constant_string_scenario_constant :
    ConstantString.deserialize "constant" (Value.str "constant")
      = Except.ok ConstantString.mk
    ∧ ConstantString.fmtDebug (ConstantString.mk : ConstantString "constant")
      = rustDebugStr "constant"
    ∧ rustDebugStr "constant" = "\"constant\""
    ∧ ConstantString.serialize (ConstantString.mk : ConstantString "constant")
      = Except.ok (Value.str "constant") := by
  refine ⟨?_, rfl, by decide, rfl⟩
  simp [ConstantString.deserialize, Value.deserialize_any,
    MustBeStrVisitor.visit_str, Except.map]

/-- C9: deserialization is deterministic and a pure function of the bound
literal and the input — identical inputs yield identical outcomes. -/
theorem constant_string_deterministic (L : String) (x y : Value)
    (h : x = y) :
    ConstantString.deserialize L x = ConstantString.deserialize L y := by
  rw [h]

/-- C9 witness: two runs on the identical input "constant" for the literal
"constant" yield identical outcomes. -/
theorem constant_string_deterministic_witness :
    Value.str "constant" = Value.str "constant"
    ∧ ConstantString.deserialize "constant" (Value.str "constant")
      = ConstantString.deserialize "constant" (Value.str "constant") :=
  ⟨rfl, constant_string_deterministic "constant" (Value.str "constant")
    (Value.str "constant") rfl⟩

/-- C10: for every bound literal `L`, default construction always succeeds
and represents `L` — the deref string view of the default instance is exactly
`L` — and any two instances of the same constant-value type are equal. -/
theorem constant_string_default_deref_unique (L : String) :
    (ConstantString.default L).deref = L
    ∧ ∀ a b : ConstantString L, a = b :=
  ⟨rfl, fun a b => by cases a; cases b; rfl⟩
